import Mathlib

/-!
Verification development for the acashmarketplace backend (Express server
wrapping the AliExpress affiliate API and two checkout providers).

The JavaScript source is shallowly embedded:
* strings stay strings; JS falsiness on strings ("" is falsy) is modelled
  explicitly; absent object fields are `Option`;
* JS numbers are modelled by exact rationals (normalized `num/den` pairs,
  `JsRat`) with an explicit NaN (`JsNum := Option JsRat`); `parseFloat` and
  `toFixed(2)` are implemented on that domain;
* the outbound HTTP calls are parameters of the pipeline functions: a
  function from the request data to the upstream outcome (network error,
  non-JSON body, or a parsed payload);
* HMAC-SHA256 (node `crypto.createHmac("sha256", …)`) is implemented
  directly on byte lists, with 32-bit words as `Nat` reduced mod 2^32.
-/

/-! ## JS string primitives -/

/-- JS `a || b` for strings: the empty string is falsy. -/
def jsOrS (a b : String) : String := if a = "" then b else a

/-- JS `x || b` where `x` is an optional (possibly `undefined`) string field. -/
def jsOrOS (a : Option String) (b : String) : String :=
  match a with
  | none => b
  | some s => if s = "" then b else s

/-- List-level check that the first list is an initial segment of the second. -/
def listIsPre : List Char → List Char → Bool
  | [], _ => true
  | _ :: _, [] => false
  | a :: as, b :: bs => a == b && listIsPre as bs

/-- List-level substring containment. -/
def listIncludes : List Char → List Char → Bool
  | [], sub => sub.isEmpty
  | h :: t, sub => listIsPre sub (h :: t) || listIncludes t sub

/-- JS `s.includes(sub)`: substring containment. -/
def strIncludes (s sub : String) : Bool := listIncludes s.data sub.data

/-- JS `s.startsWith(p)`. -/
def strStartsWith (s p : String) : Bool := listIsPre p.data s.data

/-- JS `s.replace(/ /g, "%20")`. -/
def replaceSpaces (s : String) : String :=
  String.join (s.data.map (fun c => if c = ' ' then "%20" else String.singleton c))

/-- JS `s.split("?")[0]`: the prefix of `s` before the first question mark. -/
def takeBeforeQuery (s : String) : String :=
  String.mk (s.data.takeWhile (fun c => c ≠ '?'))

/-- JS `s.toUpperCase()` (ASCII is all we need: hex digits and URLs). -/
def jsToUpperCase (s : String) : String := String.mk (s.data.map Char.toUpper)

/-! ## Bytes, hex and percent-encoding -/

/-- UTF-8 encoding of one Unicode scalar value, as `Nat`s below 256. -/
def utf8EncodeCp (n : Nat) : List Nat :=
  if n < 0x80 then [n]
  else if n < 0x800 then [0xC0 + n / 64, 0x80 + n % 64]
  else if n < 0x10000 then [0xE0 + n / 4096, 0x80 + n / 64 % 64, 0x80 + n % 64]
  else [0xF0 + n / 262144, 0x80 + n / 4096 % 64, 0x80 + n / 64 % 64, 0x80 + n % 64]

/-- UTF-8 bytes of a string, as `Nat`s below 256. -/
def utf8Bytes (s : String) : List Nat := s.data.flatMap (fun c => utf8EncodeCp c.toNat)

/-- Lowercase hex digit for a value below 16. -/
def hexDigitL (n : Nat) : Char := Char.ofNat (if n < 10 then 48 + n else 87 + n)

/-- Two lowercase hex digits of one byte. -/
def byteHexL (b : Nat) : String := String.mk [hexDigitL (b / 16), hexDigitL (b % 16)]

/-- Lowercase hex of a byte list (node `digest("hex")`). -/
def bytesToHexL (bs : List Nat) : String := String.join (bs.map byteHexL)

/-- Characters `encodeURIComponent` leaves as-is: `A–Z a–z 0–9 - _ . ! ~ * ' ( )`. -/
def uriUnreservedCode (n : Nat) : Bool :=
  (48 ≤ n && n ≤ 57) || (65 ≤ n && n ≤ 90) || (97 ≤ n && n ≤ 122) ||
  n == 45 || n == 95 || n == 46 || n == 33 || n == 126 || n == 42 ||
  n == 39 || n == 40 || n == 41

/-- Percent-encode one character as the uppercase-hex encoding of its UTF-8 bytes. -/
def percentEncodeChar (c : Char) : String :=
  String.join ((utf8Bytes (String.singleton c)).map
    (fun b => "%" ++ jsToUpperCase (byteHexL b)))

/-- JS `encodeURIComponent`. -/
def encodeURIComponent (s : String) : String :=
  String.join (s.data.map
    (fun c => if uriUnreservedCode c.toNat then String.singleton c else percentEncodeChar c))

/-! ## SHA-256 and HMAC-SHA256

Words are `Nat`s kept below 2^32 by explicit reduction. -/

def add32 (a b : Nat) : Nat := (a + b) % 4294967296

def rotr32 (n x : Nat) : Nat := x / 2 ^ n + x % 2 ^ n * 2 ^ (32 - n)

def shr32 (n x : Nat) : Nat := x / 2 ^ n

def not32 (x : Nat) : Nat := Nat.xor x 4294967295

def sigmaSmall0 (x : Nat) : Nat := Nat.xor (rotr32 7 x) (Nat.xor (rotr32 18 x) (shr32 3 x))

def sigmaSmall1 (x : Nat) : Nat := Nat.xor (rotr32 17 x) (Nat.xor (rotr32 19 x) (shr32 10 x))

def sigmaBig0 (x : Nat) : Nat := Nat.xor (rotr32 2 x) (Nat.xor (rotr32 13 x) (rotr32 22 x))

def sigmaBig1 (x : Nat) : Nat := Nat.xor (rotr32 6 x) (Nat.xor (rotr32 11 x) (rotr32 25 x))

def chooseW (x y z : Nat) : Nat := Nat.xor (Nat.land x y) (Nat.land (not32 x) z)

def majW (x y z : Nat) : Nat :=
  Nat.xor (Nat.land x y) (Nat.xor (Nat.land x z) (Nat.land y z))

/-- The 64 SHA-256 round constants. -/
def sha256K : List Nat :=
  [1116352408, 1899447441, 3049323471, 3921009573, 961987163,
   1508970993, 2453635748, 2870763221, 3624381080, 310598401,
   607225278, 1426881987, 1925078388, 2162078206, 2614888103,
   3248222580, 3835390401, 4022224774, 264347078, 604807628,
   770255983, 1249150122, 1555081692, 1996064986, 2554220882,
   2821834349, 2952996808, 3210313671, 3336571891, 3584528711,
   113926993, 338241895, 666307205, 773529912, 1294757372,
   1396182291, 1695183700, 1986661051, 2177026350, 2456956037,
   2730485921, 2820302411, 3259730800, 3345764771, 3516065817,
   3600352804, 4094571909, 275423344, 430227734, 506948616,
   659060556, 883997877, 958139571, 1322822218, 1537002063,
   1747873779, 1955562222, 2024104815, 2227730452, 2361852424,
   2428436474, 2756734187, 3204031479, 3329325298]

/-- The SHA-256 initial hash values. -/
def sha256H0 : List Nat :=
  [1779033703, 3144134277, 1013904242, 2773480762,
   1359893119, 2600822924, 528734635, 1541459225]

/-- `k` big-endian bytes of `n`. -/
def natToBytesBE : Nat → Nat → List Nat
  | 0, _ => []
  | k + 1, n => natToBytesBE k (n / 256) ++ [n % 256]

/-- SHA-256 padding: `0x80`, zeros to 56 mod 64, then the bit length on 8 bytes. -/
def padMessage (ms : List Nat) : List Nat :=
  ms ++ 128 :: List.replicate ((119 - ms.length % 64) % 64) 0
     ++ natToBytesBE 8 (ms.length * 8)

def chunksAux : Nat → List Nat → List (List Nat)
  | 0, _ => []
  | _, [] => []
  | fuel + 1, l => l.take 64 :: chunksAux fuel (l.drop 64)

/-- Split into 64-byte blocks. -/
def chunks64 (l : List Nat) : List (List Nat) := chunksAux l.length l

/-- Big-endian 32-bit words from bytes. -/
def bytesToWords : List Nat → List Nat
  | b0 :: b1 :: b2 :: b3 :: rest => (((b0 * 256 + b1) * 256 + b2) * 256 + b3) :: bytesToWords rest
  | _ => []

def schedStep (w : List Nat) : Nat :=
  let i := w.length
  add32 (sigmaSmall1 (w.getD (i - 2) 0))
    (add32 (w.getD (i - 7) 0)
      (add32 (sigmaSmall0 (w.getD (i - 15) 0)) (w.getD (i - 16) 0)))

def buildW : Nat → List Nat → List Nat
  | 0, w => w
  | n + 1, w => buildW n (w ++ [schedStep w])

/-- Message schedule: the 16 block words extended to 64. -/
def msgSchedule (ws : List Nat) : List Nat := buildW 48 ws

/-- One compression round; the register file is `[a,b,c,d,e,f,g,h]`. -/
def compressStep (r : List Nat) (kw : Nat × Nat) : List Nat :=
  let a := r.getD 0 0
  let b := r.getD 1 0
  let c := r.getD 2 0
  let d := r.getD 3 0
  let e := r.getD 4 0
  let f := r.getD 5 0
  let g := r.getD 6 0
  let h := r.getD 7 0
  let t1 := add32 h (add32 (sigmaBig1 e) (add32 (chooseW e f g) (add32 kw.1 kw.2)))
  let t2 := add32 (sigmaBig0 a) (majW a b c)
  [add32 t1 t2, a, b, c, add32 d t1, e, f, g]

def compressChunk (hs : List Nat) (chunk : List Nat) : List Nat :=
  let w := msgSchedule (bytesToWords chunk)
  let r := (sha256K.zip w).foldl compressStep hs
  (hs.zip r).map (fun p => add32 p.1 p.2)

/-- SHA-256 of a byte list. -/
def sha256Bytes (ms : List Nat) : List Nat :=
  ((chunks64 (padMessage ms)).foldl compressChunk sha256H0).foldr
    (fun h acc => natToBytesBE 4 h ++ acc) []

/-- HMAC-SHA256 over byte lists (block size 64). -/
def hmacSha256Bytes (key msg : List Nat) : List Nat :=
  let k0 := if 64 < key.length then sha256Bytes key else key
  let kp := k0 ++ List.replicate (64 - k0.length) 0
  sha256Bytes (kp.map (fun b => Nat.xor b 92) ++
    sha256Bytes (kp.map (fun b => Nat.xor b 54) ++ msg))

/-- node `crypto.createHmac("sha256", secret).update(msg).digest("hex").toUpperCase()`. -/
def hmacSha256HexUpper (secret msg : String) : String :=
  jsToUpperCase (bytesToHexL (hmacSha256Bytes (utf8Bytes secret) (utf8Bytes msg)))

/-! ## The signed-URL construction (`generateSignedUrl`, src/server.js lines 37–49) -/

def ALIEXPRESS_BASE_URL : String := "https://api-sg.aliexpress.com/sync"

/-- `params[k]` for a parameter map given as an association list. -/
def lookupParam (params : List (String × String)) (k : String) : String :=
  (List.lookup k params).getD ""

/-- Insert a string into an ascending list (one step of JS ascending sort). -/
def insertAsc (s : String) : List String → List String
  | [] => [s]
  | t :: ts => if s ≤ t then s :: t :: ts else t :: insertAsc s ts

/-- JS `Object.keys(params).sort()`: ascending lexicographic sort. -/
def sortStrings (l : List String) : List String := l.foldr insertAsc []

/-- Embedding of `generateSignedUrl(params, secret)` from src/server.js. -/
def generateSignedUrl (params : List (String × String)) (secret : String) : String :=
  let sortedKeys := sortStrings (params.map Prod.fst)
  let signString := String.join (sortedKeys.map (fun k => k ++ lookupParam params k))
  let signature := hmacSha256HexUpper secret signString
  ALIEXPRESS_BASE_URL ++ "?" ++
    String.intercalate "&"
      (sortedKeys.map (fun k => k ++ "=" ++ encodeURIComponent (lookupParam params k))) ++
    "&sign=" ++ signature

/-- Modelled from the spec's words (claim C1): sort the keys ascending, sign the
concatenated key/value string, and emit the query string with a trailing
`&sign=`. Written independently of `generateSignedUrl`, with the sort given by
`List.mergeSort`. -/
def signedUrlSpec (params : List (String × String)) (secret : String) : String :=
  let keys := List.mergeSort (params.map Prod.fst) (fun a b => decide (a ≤ b))
  let signature :=
    hmacSha256HexUpper secret (String.join (keys.map (fun k => k ++ lookupParam params k)))
  "https://api-sg.aliexpress.com/sync?" ++
    String.intercalate "&"
      (keys.map (fun k => k ++ "=" ++ encodeURIComponent (lookupParam params k))) ++
    "&sign=" ++ signature

/-! ## JS numbers: exact rationals (normalized `num/den` pairs) plus NaN -/

/-- An exact rational kept in lowest terms with a positive denominator;
used to model finite JS numbers so that everything kernel-evaluates. -/
structure JsRat where
  num : Int
  den : Nat
deriving DecidableEq, Repr

/-- Normalizing constructor: divide out the gcd (and send the degenerate
zero denominator, never produced here, to 0). -/
def mkJsRat (n : Int) (d : Nat) : JsRat :=
  if d = 0 then { num := 0, den := 1 }
  else
    let g := Nat.gcd n.natAbs d
    { num := n / (g : Int), den := d / g }

/-- A JS number: `none` is NaN, `some q` a (finite) value, modelled exactly. -/
abbrev JsNum := Option JsRat

def jsratMul (a b : JsRat) : JsRat := mkJsRat (a.num * b.num) (a.den * b.den)

def jsratAdd (a b : JsRat) : JsRat :=
  mkJsRat (a.num * (b.den : Int) + b.num * (a.den : Int)) (a.den * b.den)

def jsratNeg (a : JsRat) : JsRat := { num := -a.num, den := a.den }

/-- Multiply by `10^e` for an integer `e`. -/
def jsratScale10 (a : JsRat) : Int → JsRat
  | Int.ofNat k => mkJsRat (a.num * ((10 ^ k : Nat) : Int)) a.den
  | Int.negSucc k => mkJsRat a.num (a.den * 10 ^ (k + 1))

/-- NaN-propagating multiplication. -/
def jsMul (a b : JsNum) : JsNum :=
  match a, b with
  | some x, some y => some (jsratMul x y)
  | _, _ => none

/-- NaN-propagating addition. -/
def jsAdd (a b : JsNum) : JsNum :=
  match a, b with
  | some x, some y => some (jsratAdd x y)
  | _, _ => none

/-- JS `Math.round`: the nearest integer, half toward `+∞` (`⌊x + 1/2⌋`);
NaN stays NaN. -/
def jsRound (x : JsNum) : JsNum :=
  match x with
  | none => none
  | some q => some { num := Int.fdiv (2 * q.num + (q.den : Int)) (2 * (q.den : Int)), den := 1 }

/-- NaN-propagating addition of a plain number to a JS number. -/
def jsAddR (a : JsNum) (b : JsRat) : JsNum :=
  match a with
  | some x => some (jsratAdd x b)
  | none => none

/-- JS `x || 0` on a number: NaN (and 0) fall back to 0. -/
def jsNumOrZero (a : JsNum) : JsRat :=
  match a with
  | none => { num := 0, den := 1 }
  | some q => q

def takeDigits : List Char → List Char × List Char
  | [] => ([], [])
  | c :: rest =>
      if c.isDigit then
        let p := takeDigits rest
        (c :: p.1, p.2)
      else ([], c :: rest)

def digitsToNat (ds : List Char) : Nat := ds.foldl (fun a c => a * 10 + (c.toNat - 48)) 0

/-- Unsigned decimal mantissa: digits, an optional point, more digits; at least
one digit in total. Returns the value and the unconsumed characters. -/
def parseMantissa (cs : List Char) : Option (JsRat × List Char) :=
  let p := takeDigits cs
  match p.2 with
  | c :: r2 =>
      if c = '.' then
        let f := takeDigits r2
        if p.1.isEmpty && f.1.isEmpty then none
        else
          some (mkJsRat ((digitsToNat p.1 : Int) * ((10 ^ f.1.length : Nat) : Int) +
            (digitsToNat f.1 : Int)) (10 ^ f.1.length), f.2)
      else if p.1.isEmpty then none else some (mkJsRat (digitsToNat p.1) 1, p.2)
  | [] => if p.1.isEmpty then none else some (mkJsRat (digitsToNat p.1) 1, [])

def parseSignedDigits (cs : List Char) : Option (ℤ × List Char) :=
  match cs with
  | [] => none
  | c :: rest =>
      if c = '+' then
        let p := takeDigits rest
        if p.1.isEmpty then none else some ((digitsToNat p.1 : ℤ), p.2)
      else if c = '-' then
        let p := takeDigits rest
        if p.1.isEmpty then none else some (-(digitsToNat p.1 : ℤ), p.2)
      else
        let p := takeDigits cs
        if p.1.isEmpty then none else some ((digitsToNat p.1 : ℤ), p.2)

/-- Apply a trailing exponent part (`e`/`E`, optional sign, digits) if present;
an incomplete exponent is ignored, as in JS (`parseFloat("1e") = 1`). -/
def applyExp (q : JsRat) (cs : List Char) : JsRat :=
  match cs with
  | [] => q
  | c :: rest =>
      if c = 'e' ∨ c = 'E' then
        match parseSignedDigits rest with
        | some p => jsratScale10 q p.1
        | none => q
      else q

/-- JS `parseFloat`: skip leading whitespace, optional sign, then the longest
decimal-literal prefix; no valid prefix gives NaN. (The rarely-hit
`Infinity` literals are outside the model.) -/
def parseFloatJs (s : String) : JsNum :=
  let cs := s.data.dropWhile (fun c => c = ' ' ∨ c = Char.ofNat 9 ∨ c = Char.ofNat 10 ∨ c = Char.ofNat 13)
  match cs with
  | [] => none
  | c :: rest =>
      if c = '-' then (parseMantissa rest).map (fun p => jsratNeg (applyExp p.1 p.2))
      else if c = '+' then (parseMantissa rest).map (fun p => applyExp p.1 p.2)
      else (parseMantissa cs).map (fun p => applyExp p.1 p.2)

/-- JS `x.toFixed(2)`: round to the nearest hundredth (on a tie, the larger
candidate, i.e. `⌊100·x + 1/2⌋`) and print with exactly two decimals;
NaN prints as "NaN". -/
def jsToFixed2 (x : JsNum) : String :=
  match x with
  | none => "NaN"
  | some q =>
      let n : Int := Int.fdiv (200 * q.num + (q.den : Int)) (2 * (q.den : Int))
      let a := n.natAbs
      let s := toString a
      let s := if s.length < 3 then String.mk (List.replicate (3 - s.length) '0') ++ s else s
      (if n < 0 then "-" else "") ++
        String.mk (s.data.take (s.length - 2)) ++ "." ++ String.mk (s.data.drop (s.length - 2))

/-! ## Shipping lookup (`getShippingInfo`, src/server.js lines 52–91) -/

/-- The `result` object of a parsed shipping response; every field may be
absent (`undefined`). -/
structure ShipResult where
  shipping_fee : Option String
  min_delivery_days : Option String
  max_delivery_days : Option String
deriving DecidableEq, Repr

/-- Outcome of the outbound shipping call: the fetch threw, the body was not
JSON, or it parsed — with the `…_response?.resp_result?.result` path either
present or missing. -/
inductive ShipResp where
  | fetchError
  | invalidJson
  | parsed (result : Option ShipResult)
deriving DecidableEq, Repr

structure ShippingInfo where
  shipping_fee : String
  min_delivery_days : String
  max_delivery_days : String
deriving DecidableEq, Repr

def fallbackShipping : ShippingInfo :=
  { shipping_fee := "0", min_delivery_days := "N/A", max_delivery_days := "N/A" }

/-- Embedding of `getShippingInfo` from src/server.js: the try/catch and the
inner JSON-parse try both return the zero fallback; otherwise the
`result || {}` object is read field by field with `|| "0"` / `|| "N/A"`. -/
def getShippingInfo (resp : ShipResp) : ShippingInfo :=
  match resp with
  | .fetchError => fallbackShipping
  | .invalidJson => fallbackShipping
  | .parsed result =>
      let r := result.getD { shipping_fee := none, min_delivery_days := none, max_delivery_days := none }
      { shipping_fee := jsOrOS r.shipping_fee "0",
        min_delivery_days := jsOrOS r.min_delivery_days "N/A",
        max_delivery_days := jsOrOS r.max_delivery_days "N/A" }

/-- JS falsiness of an optional string field (`undefined` or `""`). -/
def jsFalsyOS (a : Option String) : Bool :=
  match a with
  | none => true
  | some s => s = ""

/-- The shipping lookup failed to obtain real data: the call threw, the body
was not JSON, the expected result object is missing, or all of its expected
fields are missing/empty. -/
def shipLookupFailed : ShipResp → Bool
  | .fetchError => true
  | .invalidJson => true
  | .parsed none => true
  | .parsed (some r) =>
      jsFalsyOS r.shipping_fee && jsFalsyOS r.min_delivery_days && jsFalsyOS r.max_delivery_days

/-! ## Search items and the category filter (src/server.js lines 188–222) -/

/-- An upstream item from `…product_query_response…products.product`. -/
structure Item where
  product_id : String
  sku_id : Option String
  tax_rate : Option String
  target_sale_price : String
  product_title : String
  product_main_image_url : String
  first_level_category_name : Option String
  second_level_category_name : Option String
deriving DecidableEq, Repr

/-- The client-side category filter of `searchAliExpress` (lines 194–200):
keep an item unless its first-level category name contains "Shoes" or
"Clothing", or its second-level category name contains "Clothing". -/
def categoryKeep (item : Item) : Bool :=
  let firstLevel := jsOrOS item.first_level_category_name ""
  let secondLevel := jsOrOS item.second_level_category_name ""
  !strIncludes firstLevel "Shoes" && !strIncludes firstLevel "Clothing" &&
    !strIncludes secondLevel "Clothing"

/-- A shaped entry of the search response (the object built at lines 206–217). -/
structure Product where
  id : String
  sku_id : Option String
  tax_rate : Option String
  target_sale_price : String
  title : String
  price : String
  image : String
  shipping_fee : String
  min_delivery_days : String
  max_delivery_days : String
deriving DecidableEq, Repr

/-- Response shaping for one item: `price` is
`(parseFloat(item.target_sale_price) * 1.5).toFixed(2)`. -/
def shapeItem (item : Item) (shipping : ShippingInfo) : Product :=
  { id := item.product_id,
    sku_id := item.sku_id,
    tax_rate := item.tax_rate,
    target_sale_price := item.target_sale_price,
    title := item.product_title,
    price := jsToFixed2 (jsMul (parseFloatJs item.target_sale_price) (some (mkJsRat 3 2))),
    image := item.product_main_image_url,
    shipping_fee := shipping.shipping_fee,
    min_delivery_days := shipping.min_delivery_days,
    max_delivery_days := shipping.max_delivery_days }

/-- The per-item fan-out of lines 202–219: for each item the shipping lookup
runs (second component: the log of items whose lookup was performed, in order)
and the item maps to `null` when `!shipping.shipping_fee`, else to its shaped
product. -/
def enrichItems (resp : Item → ShipResp) : List Item → List (Option Product) × List Item
  | [] => ([], [])
  | i :: is =>
      let shipping := getShippingInfo (resp i)
      let rest := enrichItems resp is
      ((if shipping.shipping_fee = "" then none else some (shapeItem i shipping)) :: rest.1,
        i :: rest.2)

/-- Embedding of `searchAliExpress` after the upstream search call, together
with the list of items for which a shipping lookup was performed: the category
filter (lines 194–200), then the fan-out (lines 202–219), then the
`filter((p) => p !== null)` of line 221. -/
def searchAliExpressT (items : List Item) (resp : Item → ShipResp) :
    List Product × List Item :=
  let filtered := items.filter categoryKeep
  let enriched := enrichItems resp filtered
  (enriched.1.filterMap id, enriched.2)

/-- The product list `searchAliExpress` returns, given the upstream search
items and the outcome of each item's shipping call. -/
def searchAliExpress (items : List Item) (resp : Item → ShipResp) : List Product :=
  (searchAliExpressT items resp).1

/-! ## SKU detail lookup (`getSkuDetails`, src/server.js lines 94–130) -/

/-- The first entry of `traffic_sku_info_list`; both fields may be absent. -/
structure SkuInfo where
  color : Option String
  sku_image_link : Option String
deriving DecidableEq, Repr

/-- Outcome of the outbound SKU call: threw, non-JSON body (the parse throws
inside the try, so it is caught), or parsed with the long optional-chaining
path present or missing. -/
inductive SkuResp where
  | fetchError
  | invalidJson
  | parsed (skuInfo : Option SkuInfo)
deriving DecidableEq, Repr

structure SkuDetails where
  color : String
  skuImage : String
deriving DecidableEq, Repr

/-- Embedding of `getSkuDetails`: any thrown error gives `{color:"", skuImage:""}`;
otherwise the `skuInfo || {}` object is read with `|| ""` per field. -/
def getSkuDetails (resp : SkuResp) : SkuDetails :=
  match resp with
  | .fetchError => { color := "", skuImage := "" }
  | .invalidJson => { color := "", skuImage := "" }
  | .parsed skuInfo =>
      let s := skuInfo.getD { color := none, sku_image_link := none }
      { color := jsOrOS s.color "", skuImage := jsOrOS s.sku_image_link "" }

/-- The SKU lookup failed to obtain real data (threw, non-JSON, missing path,
or all expected fields missing/empty). -/
def skuLookupFailed : SkuResp → Bool
  | .fetchError => true
  | .invalidJson => true
  | .parsed none => true
  | .parsed (some s) => jsFalsyOS s.color && jsFalsyOS s.sku_image_link

/-! ## HTTP endpoints -/

/-- The MetaMask cart object (lines 320–329). -/
structure Cart where
  title : Option String
  productId : Option String
  color : String
  image : String
  price : JsNum
  shipping : JsRat
  total : JsNum
  discountTotal : String
deriving DecidableEq, Repr

/-- A response body: a fixed JSON error message, search results, SKU details,
a MetaMask cart, a Stripe checkout URL, plain text (`res.send("…")`), or
proxied image bytes. -/
inductive Body where
  | errorMsg (msg : String)
  | searchResults (query : String) (results : List Product)
  | skuBody (d : SkuDetails)
  | cartBody (c : Cart)
  | urlBody (url : String)
  | textBody (msg : String)
  | imageBody (contentType : String) (bytes : List Nat)
deriving DecidableEq, Repr

/-- Embedding of `GET /api/search` (lines 237–248). The upstream call is a
thunk so that the model shows when it runs: the boolean of the result is true
exactly on the paths where `searchAliExpress` was invoked. -/
def searchEndpoint (q : Option String) (upstream : Unit → Except Unit (List Product)) :
    (Nat × Body) × Bool :=
  let query := jsOrOS q ""
  if query = "" then ((400, Body.errorMsg "Query is required"), false)
  else
    match upstream () with
    | Except.ok products => ((200, Body.searchResults query products), true)
    | Except.error _ => ((500, Body.errorMsg "Failed to fetch products"), true)

/-- Body of `POST /api/metamask-checkout` (src/server.js lines 291–336). -/
structure MetaReq where
  title : Option String
  price : Option String
  shipping_fee : Option String
  image : Option String
  productId : Option String
  skuId : Option String
deriving DecidableEq, Repr

/-- `parseFloat` applied to a possibly-absent request field
(`parseFloat(undefined)` is NaN). -/
def parseFloatField (o : Option String) : JsNum :=
  match o with
  | none => none
  | some s => parseFloatJs s

/-- JS `a || b` where both sides are possibly-absent strings. -/
def jsOrOptS (a b : Option String) : Option String :=
  match a with
  | none => b
  | some s => if s = "" then b else some s

/-- JS truthiness of a possibly-absent string. -/
def jsTruthyOS (a : Option String) : Bool :=
  match a with
  | none => false
  | some s => s ≠ ""

/-- Embedding of the MetaMask checkout handler: totals from `parseFloat` with
no validation, then image normalisation; the unguarded
`normalizedImage.replace(/ /g, "%20")` throws on an absent image, which the
catch turns into the fixed 500. -/
def metamaskCheckout (req : MetaReq) (sku : SkuResp) : Nat × Body :=
  let skuDetails := getSkuDetails sku
  let color := jsOrS skuDetails.color ""
  let skuImage := jsOrOptS (if skuDetails.skuImage = "" then none else some skuDetails.skuImage) req.image
  let basePrice := parseFloatField req.price
  let shipping := jsNumOrZero (parseFloatField req.shipping_fee)
  let discountTotal := jsMul basePrice (some (mkJsRat 9 10))
  let total := jsAddR discountTotal shipping
  let n0 := jsOrOptS skuImage req.image
  let n1 := if jsTruthyOS n0 then n0.map takeBeforeQuery else n0
  let n2 := if jsTruthyOS n1 && !(match n1 with | some s => strStartsWith s "http" | none => false)
    then n1.map (fun s => "https:" ++ s) else n1
  match n2 with
  | none => (500, Body.errorMsg "Failed to build MetaMask checkout cart")
  | some img =>
      (200, Body.cartBody
        { title := req.title,
          productId := req.productId,
          color := color,
          image := replaceSpaces img,
          price := basePrice,
          shipping := shipping,
          total := total,
          discountTotal := jsToFixed2 discountTotal })

/-- Template-literal interpolation of a possibly-absent value:
JS renders `undefined` as the string "undefined". -/
def strOfUndef (o : Option String) : String := o.getD "undefined"

/-- The data the Stripe checkout endpoint passes to
`stripe.checkout.sessions.create` (the external Stripe SDK call). -/
structure StripeSessionReq where
  name : String
  image : Option String
  unit_amount : JsNum
deriving DecidableEq, Repr

/-- Embedding of `POST /api/cart/add` (src/server.js lines 251–288): SKU
lookup, `parseFloat` totals with no validation, `Math.round(total * 100)`,
then the Stripe call; any throw is caught and answered with the fixed 500. -/
def cartAddEndpoint (req : MetaReq) (sku : SkuResp)
    (stripe : StripeSessionReq → Except Unit String) : Nat × Body :=
  let skuDetails := getSkuDetails sku
  let color := jsOrS skuDetails.color ""
  let skuImage := jsOrOptS (if skuDetails.skuImage = "" then none else some skuDetails.skuImage) req.image
  let totalAmount := jsAdd (parseFloatField req.price) (parseFloatField req.shipping_fee)
  let name := strOfUndef req.title ++ " " ++ strOfUndef req.productId ++
    (if color = "" then "" else " | " ++ color)
  let sessionReq : StripeSessionReq :=
    { name := name, image := skuImage,
      unit_amount := jsRound (jsMul totalAmount (some { num := 100, den := 1 })) }
  match stripe sessionReq with
  | Except.ok url => (200, Body.urlBody url)
  | Except.error _ => (500, Body.errorMsg "Failed to create checkout session")

/-- Embedding of `POST /api/sku-details` (src/server.js lines 225–234): the
handler's own catch (500) is unreachable because `getSkuDetails` catches every
failure itself, so the endpoint always answers 200 with the SKU details (the
hardcoded `{color:"", skuImage:""}` fallback when the lookup failed). -/
def skuDetailsEndpoint (resp : SkuResp) : Nat × Body :=
  (200, Body.skuBody (getSkuDetails resp))

/-- Outcome of the image-proxy's upstream fetch: it threw, it answered with a
non-ok status, or it succeeded with an optional content-type and the bytes. -/
inductive FetchOutcome where
  | threw
  | httpError
  | okResp (contentType : Option String) (bytes : List Nat)
deriving DecidableEq, Repr

/-- Embedding of `GET /api/image-proxy` (src/unnamed/part_000 lines 321–337):
400 on a missing `url`, 502 `Failed to fetch image` when the upstream response
is not ok, 500 `Image proxy failed` when the fetch throws, else the proxied
bytes with `content-type || "image/jpeg"`. -/
def imageProxyEndpoint (url : Option String) (fetchRes : FetchOutcome) : Nat × Body :=
  if jsTruthyOS url then
    match fetchRes with
    | FetchOutcome.threw => (500, Body.textBody "Image proxy failed")
    | FetchOutcome.httpError => (502, Body.textBody "Failed to fetch image")
    | FetchOutcome.okResp ct bytes => (200, Body.imageBody (jsOrOS ct "image/jpeg") bytes)
  else (400, Body.textBody "Missing url query")

/-! ## Concrete inputs used by closed theorems -/

def gadgetItem : Item :=
  { product_id := "1005001", sku_id := some "sku1", tax_rate := some "0",
    target_sale_price := "10.00", product_title := "USB Gadget",
    product_main_image_url := "https://img.example.com/g.jpg",
    first_level_category_name := some "Consumer Electronics",
    second_level_category_name := some "Gadgets" }

def shoeItem : Item :=
  { product_id := "1005002", sku_id := none, tax_rate := none,
    target_sale_price := "20.00", product_title := "Running Sneakers",
    product_main_image_url := "https://img.example.com/s.jpg",
    first_level_category_name := some "Shoes",
    second_level_category_name := some "Sneakers" }

def badPriceReq : MetaReq :=
  { title := some "Widget", price := some "-5", shipping_fee := some "3",
    image := some "https://img.example.com/w.jpg", productId := some "p1",
    skuId := some "s1" }

/-! ## Sanity anchors for the cryptographic primitives -/

/-- NIST test vector: SHA-256 of "abc". -/
theorem sha256_nist_vector :
    bytesToHexL (sha256Bytes (utf8Bytes "abc")) =
      "ba7816bf8f01cfea414140de5dae2223b00361a396177a9cb410ff61f20015ad" := by decide

set_option maxRecDepth 8192 in
/-- RFC 4231 test case 2: HMAC-SHA256 with key "Jefe". -/
theorem hmacSha256_rfc4231_vector :
    hmacSha256HexUpper "Jefe" "what do ya want for nothing?" =
      jsToUpperCase "5bdcc146bf60754e6a042426089575c75a003f089d2739839dec58b964ec3843" := by decide

/-! ## Sorting lemmas: the fold of `insertAsc` is a correct ascending sort -/

theorem insertAsc_eq_orderedInsert (s : String) (l : List String) :
    insertAsc s l = List.orderedInsert (fun a b => a ≤ b) s l := by
  induction l with
  | nil => rfl
  | cons t ts ih => simp only [insertAsc, List.orderedInsert, ih]

theorem sortStrings_eq_insertionSort (l : List String) :
    sortStrings l = List.insertionSort (fun a b => a ≤ b) l := by
  induction l with
  | nil => rfl
  | cons a l ih =>
      show insertAsc a (sortStrings l) = _
      rw [List.insertionSort, ih, insertAsc_eq_orderedInsert]

theorem sortStrings_eq_mergeSort (l : List String) :
    sortStrings l = List.mergeSort l (fun a b => decide (a ≤ b)) := by
  have hperm : (sortStrings l).Perm (List.mergeSort l (fun a b => decide (a ≤ b))) :=
    (sortStrings_eq_insertionSort l ▸ List.perm_insertionSort _ l).trans
      (List.mergeSort_perm l _).symm
  have hs1 : List.Sorted (fun a b : String => a ≤ b) (sortStrings l) := by
    rw [sortStrings_eq_insertionSort]
    exact List.sorted_insertionSort _ l
  have hs2 : List.Sorted (fun a b : String => a ≤ b)
      (List.mergeSort l (fun a b => decide (a ≤ b))) := by
    have hs := @List.sorted_mergeSort String (fun a b : String => decide (a ≤ b))
      (fun a b c hab hbc => by
        simp only [decide_eq_true_eq] at *
        exact le_trans hab hbc)
      (fun a b => by simpa using le_total a b) l
    exact hs.imp (fun h => of_decide_eq_true h)
  exact List.eq_of_perm_of_sorted hperm hs1 hs2

/-- C1: `generateSignedUrl(params, secret)` sorts the keys ascending, signs the
concatenation of each key followed by its value with HMAC-SHA256 (uppercased
hex digest) keyed by the secret, and returns the AliExpress sync URL with the
percent-encoded sorted pairs and a final `&sign=` parameter. -/
theorem generateSignedUrl_meets_spec (params : List (String × String)) (secret : String) :
    generateSignedUrl params secret = signedUrlSpec params secret := by
  simp only [generateSignedUrl, signedUrlSpec, sortStrings_eq_mergeSort, ALIEXPRESS_BASE_URL]
  have hb : ("https://api-sg.aliexpress.com/sync" ++ "?" : String) =
      "https://api-sg.aliexpress.com/sync?" := rfl
  rw [hb]

/-- C2: the request-signing routine is deterministic — equal parameter maps and
equal secrets give equal signed URLs; nothing else influences the result. -/
theorem generateSignedUrl_deterministic (p₁ p₂ : List (String × String)) (s₁ s₂ : String)
    (hp : p₁ = p₂) (hs : s₁ = s₂) :
    generateSignedUrl p₁ s₁ = generateSignedUrl p₂ s₂ := by rw [hp, hs]

theorem generateSignedUrl_deterministic_witness :
    generateSignedUrl [("app_key", "k"), ("sign_method", "sha256")] "secret" =
      generateSignedUrl [("app_key", "k"), ("sign_method", "sha256")] "secret" :=
  generateSignedUrl_deterministic _ _ _ _ rfl rfl

/-! ## Helper lemmas on the fallback behaviour -/

theorem jsOrOS_of_falsy (a : Option String) (d : String) (h : jsFalsyOS a = true) :
    jsOrOS a d = d := by
  cases a with
  | none => rfl
  | some s =>
      simp only [jsFalsyOS, decide_eq_true_eq] at h
      simp [jsOrOS, h]

theorem jsOrOS_ne_empty (a : Option String) (d : String) (hd : d ≠ "") :
    jsOrOS a d ≠ "" := by
  cases a with
  | none => exact hd
  | some s =>
      simp only [jsOrOS]
      split
      · exact hd
      · assumption

theorem jsOrOS_empty_getD (a : Option String) : jsOrOS a "" = a.getD "" := by
  cases a with
  | none => rfl
  | some s =>
      by_cases h : s = ""
      · simp [jsOrOS, h]
      · simp [jsOrOS, h]

theorem getShippingInfo_fallback_of_failed (r : ShipResp) (h : shipLookupFailed r = true) :
    getShippingInfo r = fallbackShipping := by
  cases r with
  | fetchError => rfl
  | invalidJson => rfl
  | parsed result =>
      cases result with
      | none => rfl
      | some s =>
          simp only [shipLookupFailed, Bool.and_eq_true] at h
          obtain ⟨⟨h1, h2⟩, h3⟩ := h
          simp only [getShippingInfo, Option.getD_some, fallbackShipping]
          rw [jsOrOS_of_falsy _ _ h1, jsOrOS_of_falsy _ _ h2, jsOrOS_of_falsy _ _ h3]

theorem getSkuDetails_fallback_of_failed (r : SkuResp) (h : skuLookupFailed r = true) :
    getSkuDetails r = { color := "", skuImage := "" } := by
  cases r with
  | fetchError => rfl
  | invalidJson => rfl
  | parsed skuInfo =>
      cases skuInfo with
      | none => rfl
      | some s =>
          simp only [skuLookupFailed, Bool.and_eq_true] at h
          obtain ⟨h1, h2⟩ := h
          simp only [getSkuDetails, Option.getD_some]
          rw [jsOrOS_of_falsy _ _ h1, jsOrOS_of_falsy _ _ h2]

theorem getShippingInfo_fee_ne_empty (r : ShipResp) :
    (getShippingInfo r).shipping_fee ≠ "" := by
  cases r with
  | fetchError => simp [getShippingInfo, fallbackShipping]
  | invalidJson => simp [getShippingInfo, fallbackShipping]
  | parsed result =>
      simp only [getShippingInfo]
      exact jsOrOS_ne_empty _ _ (by simp)

theorem enrichItems_fst (resp : Item → ShipResp) (l : List Item) :
    (enrichItems resp l).1 = l.map (fun i => some (shapeItem i (getShippingInfo (resp i)))) := by
  induction l with
  | nil => rfl
  | cons i is ih =>
      simp only [enrichItems, List.map, ih]
      rw [if_neg (getShippingInfo_fee_ne_empty (resp i))]

theorem enrichItems_snd (resp : Item → ShipResp) (l : List Item) :
    (enrichItems resp l).2 = l := by
  induction l with
  | nil => rfl
  | cons i is ih => simp only [enrichItems, ih]

theorem filterMap_id_map_some {α β : Type} (f : α → β) (l : List α) :
    (l.map (fun a => some (f a))).filterMap id = l.map f := by
  induction l with
  | nil => rfl
  | cons a l ih => simp [List.filterMap_cons, ih]

theorem searchAliExpress_eq (items : List Item) (resp : Item → ShipResp) :
    searchAliExpress items resp =
      (items.filter categoryKeep).map (fun i => shapeItem i (getShippingInfo (resp i))) := by
  unfold searchAliExpress searchAliExpressT
  simp only [enrichItems_fst]
  exact filterMap_id_map_some _ _

theorem categoryKeep_eq_true_iff (i : Item) :
    categoryKeep i = true ↔
      strIncludes (i.first_level_category_name.getD "") "Shoes" = false ∧
        strIncludes (i.first_level_category_name.getD "") "Clothing" = false ∧
        strIncludes (i.second_level_category_name.getD "") "Clothing" = false := by
  simp only [categoryKeep, jsOrOS_empty_getD, Bool.and_eq_true, Bool.not_eq_true']
  tauto

/-! ## Claims -/

/-- C3 counterexample: an item that passes the category filter and whose
shipping lookup fails outright (the fetch throws) is NOT dropped — the search
result still contains its entry, shaped with the zero-value fallback. -/
theorem failed_lookup_not_dropped_cex :
    shipLookupFailed ShipResp.fetchError = true ∧
    shapeItem gadgetItem fallbackShipping ∈
      searchAliExpress [gadgetItem] (fun _ => ShipResp.fetchError) := by
  constructor
  · rfl
  · decide

/-- C3 (amended): no item is ever dropped at the shipping stage. Every item
surviving the category filter whose shipping lookup fails still appears in the
returned list, carrying the zero-value fallback: `getShippingInfo` always
returns a non-empty `shipping_fee`, so the `null` branch of the fan-out is
unreachable. -/
theorem failed_lookup_kept_with_fallback (items : List Item) (resp : Item → ShipResp)
    (i : Item) (hmem : i ∈ items) (hkeep : categoryKeep i = true)
    (hfail : shipLookupFailed (resp i) = true) :
    shapeItem i fallbackShipping ∈ searchAliExpress items resp := by
  rw [searchAliExpress_eq, ← getShippingInfo_fallback_of_failed (resp i) hfail]
  exact List.mem_map_of_mem _ (List.mem_filter.mpr ⟨hmem, hkeep⟩)

theorem failed_lookup_kept_with_fallback_witness :
    shapeItem gadgetItem fallbackShipping ∈
      searchAliExpress [gadgetItem] (fun _ => ShipResp.invalidJson) :=
  failed_lookup_kept_with_fallback [gadgetItem] (fun _ => ShipResp.invalidJson) gadgetItem
    (List.mem_singleton.mpr rfl) (by decide) rfl

/-- C4: whenever the shipping lookup fails in any way — the call throws, the
body is not JSON, the expected result object is missing, or its expected
fields are all missing — `getShippingInfo` returns the zero-value fallback
instead of propagating an error. -/
theorem getShippingInfo_zero_fallback_on_failure (r : ShipResp)
    (h : shipLookupFailed r = true) :
    getShippingInfo r =
      { shipping_fee := "0", min_delivery_days := "N/A", max_delivery_days := "N/A" } :=
  getShippingInfo_fallback_of_failed r h

theorem getShippingInfo_zero_fallback_on_failure_witness :
    getShippingInfo (ShipResp.parsed none) =
      { shipping_fee := "0", min_delivery_days := "N/A", max_delivery_days := "N/A" } :=
  getShippingInfo_zero_fallback_on_failure (ShipResp.parsed none) rfl

/-- C5 counterexample: the category filter runs BEFORE the per-item shipping
lookups, not after. An item returned by the search call but removed by the
filter receives no shipping lookup at all: the lookup log of the pipeline is
empty although the search returned one item. -/
theorem filter_not_after_lookup_cex :
    (searchAliExpressT [shoeItem] (fun _ => ShipResp.parsed none)).2 = [] ∧
    [shoeItem].length = 1 := by
  constructor
  · rfl
  · rfl

/-- C5 (amended): the pipeline order is search call, then category filtering,
then per-item shipping lookup, then response shaping: shipping lookups are
performed exactly for the filtered items, and the result shapes those same
items after their lookups. -/
theorem pipeline_filter_then_lookup_then_shape (items : List Item) (resp : Item → ShipResp) :
    (searchAliExpressT items resp).2 = items.filter categoryKeep ∧
    (searchAliExpressT items resp).1 =
      (items.filter categoryKeep).map (fun i => shapeItem i (getShippingInfo (resp i))) := by
  constructor
  · unfold searchAliExpressT
    exact enrichItems_snd _ _
  · exact searchAliExpress_eq items resp

/-- C6: an upstream item survives the client-side category filter (and so gets
a shipping lookup) iff its first-level category name (empty when absent)
contains neither "Shoes" nor "Clothing" and its second-level category name
(empty when absent) does not contain "Clothing"; the filter removes nothing
else. -/
theorem category_filter_characterisation (items : List Item) (resp : Item → ShipResp)
    (i : Item) :
    i ∈ (searchAliExpressT items resp).2 ↔
      i ∈ items ∧
        strIncludes (i.first_level_category_name.getD "") "Shoes" = false ∧
        strIncludes (i.first_level_category_name.getD "") "Clothing" = false ∧
        strIncludes (i.second_level_category_name.getD "") "Clothing" = false := by
  have h2 : (searchAliExpressT items resp).2 = items.filter categoryKeep := by
    unfold searchAliExpressT
    exact enrichItems_snd _ _
  rw [h2, List.mem_filter, categoryKeep_eq_true_iff]

/-- C7: every product in the search results carries the marked-up price of its
upstream item: `target_sale_price` parsed as a number, multiplied by 1.5
(here 3/2 over exact rationals), rendered with exactly two decimals. -/
theorem search_price_is_markup (items : List Item) (resp : Item → ShipResp) (p : Product)
    (hp : p ∈ searchAliExpress items resp) :
    ∃ i, i ∈ items ∧ p.id = i.product_id ∧
      p.price = jsToFixed2 (jsMul (parseFloatJs i.target_sale_price) (some (mkJsRat 3 2))) := by
  rw [searchAliExpress_eq] at hp
  obtain ⟨i, hi, hEq⟩ := List.mem_map.mp hp
  refine ⟨i, (List.mem_filter.mp hi).1, ?_, ?_⟩
  · rw [← hEq]
    rfl
  · rw [← hEq]
    rfl

theorem search_price_is_markup_witness :
    ∃ i, i ∈ [gadgetItem] ∧
      (shapeItem gadgetItem fallbackShipping).id = i.product_id ∧
      (shapeItem gadgetItem fallbackShipping).price =
        jsToFixed2 (jsMul (parseFloatJs i.target_sale_price) (some (mkJsRat 3 2))) :=
  search_price_is_markup [gadgetItem] (fun _ => ShipResp.fetchError)
    (shapeItem gadgetItem fallbackShipping) (by decide)

/-- C8 counterexample: the image-proxy endpoint answers 502 `Failed to fetch
image` when the upstream response is not ok — an upstream failure that reaches
the client neither as a hardcoded fallback inside a normal (200) response nor
as a generic 500. -/
theorem image_proxy_502_cex :
    imageProxyEndpoint (some "https://img.example.com/a.jpg") FetchOutcome.httpError =
      (502, Body.textBody "Failed to fetch image") ∧
    (502 ≠ 200 ∧ 502 ≠ 500) := by
  refine ⟨by decide, by decide, by decide⟩

theorem metamask_response_cases (req : MetaReq) (sku : SkuResp) :
    (∃ c, metamaskCheckout req sku = (200, Body.cartBody c)) ∨
      metamaskCheckout req sku =
        (500, Body.errorMsg "Failed to build MetaMask checkout cart") := by
  simp only [metamaskCheckout]
  split
  · right
    rfl
  · left
    exact ⟨_, rfl⟩

/-- C8 (amended): on each public endpoint, an upstream failure surfaces only
as a hardcoded fallback inside a normal response (shipping zero fallback, SKU
`{color:"", skuImage:""}`, the sku-details endpoint answering 200 with that
fallback) or as a fixed error response with a hardcoded message — 500 for the
search, Stripe cart/add and MetaMask endpoints, with the one exception of the
image proxy, which answers 502 `Failed to fetch image` on a non-ok upstream
response (and the fixed 500 `Image proxy failed` when the fetch throws). -/
theorem upstream_failure_responses :
    (∀ r : ShipResp, shipLookupFailed r = true → getShippingInfo r = fallbackShipping) ∧
    (∀ r : SkuResp, skuLookupFailed r = true →
      getSkuDetails r = { color := "", skuImage := "" }) ∧
    (∀ r : SkuResp, skuDetailsEndpoint r = (200, Body.skuBody (getSkuDetails r))) ∧
    (∀ (q : Option String) (e : Unit), jsOrOS q "" ≠ "" →
      searchEndpoint q (fun _ => Except.error e) =
        ((500, Body.errorMsg "Failed to fetch products"), true)) ∧
    (∀ (req : MetaReq) (sku : SkuResp) (e : Unit),
      cartAddEndpoint req sku (fun _ => Except.error e) =
        (500, Body.errorMsg "Failed to create checkout session")) ∧
    (∀ (req : MetaReq) (sku : SkuResp),
      (∃ c, metamaskCheckout req sku = (200, Body.cartBody c)) ∨
        metamaskCheckout req sku =
          (500, Body.errorMsg "Failed to build MetaMask checkout cart")) ∧
    (∀ url : Option String, jsTruthyOS url = true →
      imageProxyEndpoint url FetchOutcome.threw = (500, Body.textBody "Image proxy failed") ∧
      imageProxyEndpoint url FetchOutcome.httpError =
        (502, Body.textBody "Failed to fetch image")) := by
  refine ⟨getShippingInfo_fallback_of_failed, getSkuDetails_fallback_of_failed,
    fun r => rfl, ?_, fun req sku e => rfl, metamask_response_cases, ?_⟩
  · intro q e h
    simp only [searchEndpoint]
    rw [if_neg h]
  · intro url h
    constructor
    · simp [imageProxyEndpoint, h]
    · simp [imageProxyEndpoint, h]

theorem upstream_failure_responses_witness :
    getShippingInfo ShipResp.fetchError = fallbackShipping ∧
    getSkuDetails SkuResp.invalidJson = { color := "", skuImage := "" } ∧
    searchEndpoint (some "usb charger") (fun _ => Except.error ()) =
      ((500, Body.errorMsg "Failed to fetch products"), true) ∧
    imageProxyEndpoint (some "https://img.example.com/b.jpg") FetchOutcome.threw =
      (500, Body.textBody "Image proxy failed") :=
  ⟨upstream_failure_responses.1 ShipResp.fetchError rfl,
   upstream_failure_responses.2.1 SkuResp.invalidJson rfl,
   upstream_failure_responses.2.2.2.1 (some "usb charger") () (by decide),
   (upstream_failure_responses.2.2.2.2.2.2 (some "https://img.example.com/b.jpg")
     (by decide)).1⟩

/-- C9: the MetaMask checkout endpoint performs no validation of the
client-supplied price: a request whose price is the negative string "-5"
still gets a 200 cart response, with the unvalidated value propagated into
the totals (price −5, discounted total −4.50, total −1.5). -/
theorem metamask_accepts_unvalidated_price :
    parseFloatField badPriceReq.price = some { num := -5, den := 1 } ∧
    metamaskCheckout badPriceReq SkuResp.fetchError =
      (200, Body.cartBody
        { title := some "Widget", productId := some "p1", color := "",
          image := "https://img.example.com/w.jpg", price := some { num := -5, den := 1 },
          shipping := { num := 3, den := 1 }, total := some { num := -3, den := 2 },
          discountTotal := "-4.50" }) := by
  constructor
  · decide
  · decide

/-- C10: a `GET /api/search` whose `q` parameter is missing or empty answers
400 `Query is required` without invoking `searchAliExpress` (the invocation
flag of the model is `false`). -/
theorem search_missing_query_400 (q : Option String)
    (u : Unit → Except Unit (List Product)) (h : q = none ∨ q = some "") :
    searchEndpoint q u = ((400, Body.errorMsg "Query is required"), false) := by
  rcases h with h | h
  · subst h
    rfl
  · subst h
    rfl

theorem search_missing_query_400_witness :
    searchEndpoint none (fun _ => Except.ok []) =
      ((400, Body.errorMsg "Query is required"), false) :=
  search_missing_query_400 none (fun _ => Except.ok []) (Or.inl rfl)
